import Mathlib

/-!
Shallow embedding of the CADENZA-RESIDENCE relay servers
(`main_realtime.py`, `main.py`, `main_speech.py`, `speech_server.py`,
`server.py`) and proofs about the voice-activity segmenter, the relay
message loop, the backend response handlers and the token endpoint.

Conventions:
- raw PCM bytes are `List Nat` (each entry one byte, value < 256);
- `np.frombuffer(data, dtype=np.int16)` is modelled by
  `frombuffer_int16`, which fails (`none`) exactly when the byte count
  is odd, matching the `ValueError` numpy raises;
- `np.abs(a).mean() > threshold` on int16 samples is modelled by the
  exact integer comparison `threshold * len < sum of absolute values`;
  for the empty array numpy yields NaN and `NaN > threshold` is False,
  which coincides with the model (`0 < 0` is false);
- JSON framing is abstracted structurally: the result of `json.loads`
  on a client text frame is a `TextPayload` (either a decode error or
  an object with optional `type` and `message` fields), and the JSON
  status objects sent to the client are `StatusMsg` values.
-/

namespace Cadenza

/-- Decode one little-endian int16 sample from two bytes. -/
def bytesToInt16 (lo hi : Nat) : Int :=
  let v := lo + 256 * hi
  if v < 32768 then (v : Int) else (v : Int) - 65536

/-- Model of `np.frombuffer(audio_data, dtype=np.int16)`: decodes pairs of
bytes little-endian; `none` models the `ValueError` raised when the byte
count is not a multiple of two. -/
def frombuffer_int16 : List Nat → Option (List Int)
  | [] => some []
  | [_] => none
  | lo :: hi :: rest =>
    match frombuffer_int16 rest with
    | none => none
    | some samples => some (bytesToInt16 lo hi :: samples)

/-- Absolute value as computed by numpy on an int16 array: the result
dtype stays int16, so the minimum value -32768 wraps to itself; every
other value yields its true absolute value. -/
def int16_abs (x : Int) : Int :=
  if x = -32768 then -32768 else if x < 0 then -x else x

/-- Sum of the wrapped int16 absolute sample values (can be negative
when samples equal -32768). -/
def sumAbs (samples : List Int) : Int :=
  (samples.map int16_abs).sum

/-- Model of `np.abs(audio_array).mean() > threshold` on an int16
array: `np.abs` wraps per `int16_abs`, and the float64 mean comparison
is the exact integer form `threshold * n < sum` (equivalent for
nonempty arrays; false for the empty array, where numpy produces NaN
and the comparison is False). -/
def audioLevelExceeds (samples : List Int) (threshold : Nat) : Bool :=
  decide ((threshold : Int) * samples.length < sumAbs samples)

/-- The spec sentence taken literally: the true mean absolute sample
amplitude (mathematical absolute value, no int16 wrap) exceeds the
threshold.  Stated for comparison with `audioLevelExceeds`, which is
what the program computes. -/
def specMeanAbsExceeds (samples : List Int) (threshold : Nat) : Bool :=
  decide ((threshold : Int) * samples.length < (samples.map (fun s => |s|)).sum)

/-- `SILENCE_THRESHOLD = 10` from `main_realtime.py`. -/
def SILENCE_THRESHOLD : Nat := 10

/-- `voice_threshold = 500` from `process_audio_chunk`. -/
def voice_threshold : Nat := 500

/-- `CHUNK_SIZE = 1024` from `main_realtime.py`. -/
def CHUNK_SIZE : Nat := 1024

/-- The mutable segmenter state of `websocket_endpoint` in
`main_realtime.py`: `audio_buffer`, `is_speaking`, `silence_counter`. -/
structure SegState where
  audio_buffer : List Nat
  is_speaking : Bool
  silence_counter : Nat
deriving DecidableEq, Repr

/-- The start state: empty buffer, not speaking, zero counter. -/
def initSegState : SegState := ⟨[], false, 0⟩

/-- Embedding of `process_audio_chunk` from `main_realtime.py`
(lines 136-160), faithful to the source: on emission the function
returns `bytes(audio_buffer)` immediately, so the `audio_buffer.clear()`
and `is_speaking = False` statements after the `return` do not run and
the buffer and flag are left unchanged.  `none` models the `ValueError`
escaping from `np.frombuffer` on an odd byte count. -/
def process_audio_chunk (st : SegState) (audio_data : List Nat) :
    Option (SegState × Option (List Nat)) :=
  match frombuffer_int16 audio_data with
  | none => none
  | some audio_array =>
    if audioLevelExceeds audio_array voice_threshold then
      some (⟨st.audio_buffer ++ audio_data, true, 0⟩, none)
    else
      if st.is_speaking && decide (SILENCE_THRESHOLD < st.silence_counter + 1) then
        if 0 < st.audio_buffer.length then
          some (⟨st.audio_buffer, st.is_speaking, st.silence_counter + 1⟩,
            some st.audio_buffer)
        else
          some (⟨[], false, st.silence_counter + 1⟩, none)
      else
        some (⟨st.audio_buffer, st.is_speaking, st.silence_counter + 1⟩, none)

/-- Run the segmenter over a list of chunks, collecting the completed
utterances in order; `none` if any chunk raises. -/
def runSegmenter (st : SegState) (chunks : List (List Nat)) :
    Option (SegState × List (List Nat)) :=
  match chunks with
  | [] => some (st, [])
  | c :: cs =>
    match process_audio_chunk st c with
    | none => none
    | some (st1, e) =>
      match runSegmenter st1 cs with
      | none => none
      | some (st2, es) => some (st2, e.toList ++ es)

/-- A chunk is well formed when `np.frombuffer` succeeds on it. -/
def isWellFormed (chunk : List Nat) : Bool :=
  (frombuffer_int16 chunk).isSome

/-- A chunk is voiced when it decodes and its mean absolute amplitude
exceeds the voice threshold. -/
def isVoiced (chunk : List Nat) : Bool :=
  match frombuffer_int16 chunk with
  | none => false
  | some samples => audioLevelExceeds samples voice_threshold

/-! Relay message loop of `main_realtime.py` (`websocket_endpoint`,
`handle_client_message`), plus the text handlers of `main_speech.py` and
`main.py`, and the backend response handler of `speech_server.py`. -/

/-- JSON status objects sent to the client (`json.dumps` payloads),
abstracted structurally. -/
inductive StatusMsg where
  | greeting_complete (message : String)
  | voice_status (status : String)
  | ai_turn_complete
  | speech_complete
deriving DecidableEq, Repr

/-- An effect of processing one message: a text frame to the client, a
binary frame to the client, audio streamed to the backend, or a text
turn sent to the backend. -/
inductive Output where
  | clientText (m : StatusMsg)
  | clientBytes (b : List Nat)
  | backendAudio (b : List Nat)
  | backendText (s : String)
deriving DecidableEq, Repr

/-- Result of `json.loads` on a client text frame: either a
`JSONDecodeError`, or an object whose `.get` fields for `type` and
`message` are as recorded. -/
inductive TextPayload where
  | invalid
  | obj (mtype : Option String) (message : Option String)
deriving DecidableEq, Repr

/-- Embedding of `handle_client_message` from `main_realtime.py`
(lines 103-134): `ai_greeting` echoes a `greeting_complete` status,
`start_realtime_voice` and `stop_realtime_voice` acknowledge with a
`voice_status`, anything else (including invalid JSON, which is caught)
produces nothing. -/
def handle_client_message_rt (p : TextPayload) : List Output :=
  match p with
  | .invalid => []
  | .obj mtype message =>
    match mtype with
    | some "ai_greeting" =>
        [Output.clientText (StatusMsg.greeting_complete
          (message.getD "Hello! How can I help you with the Cadenza Residence tour?"))]
    | some "start_realtime_voice" =>
        [Output.clientText (StatusMsg.voice_status "listening")]
    | some "stop_realtime_voice" =>
        [Output.clientText (StatusMsg.voice_status "stopped")]
    | _ => []

/-- Embedding of `handle_client_message` from `main_speech.py`
(lines 95-123): identical to the realtime variant except that
`ai_greeting` forwards the greeting text to the backend. -/
def handle_client_message_speech (p : TextPayload) : List Output :=
  match p with
  | .invalid => []
  | .obj mtype message =>
    match mtype with
    | some "ai_greeting" =>
        [Output.backendText
          (message.getD "Hello! How can I help you with the Cadenza Residence tour?")]
    | some "start_realtime_voice" =>
        [Output.clientText (StatusMsg.voice_status "listening")]
    | some "stop_realtime_voice" =>
        [Output.clientText (StatusMsg.voice_status "stopped")]
    | _ => []

/-- Embedding of the text-message branch of `websocket_endpoint` in
`main.py` (lines 169-195): only `ai_greeting` and `user_message` are
handled (forwarded to the backend via `send_client_content`); any other
type, including `start_realtime_voice`, falls through with no action,
and `json.JSONDecodeError` is caught and ignored. -/
def mainpy_handle_text (p : TextPayload) : List Output :=
  match p with
  | .invalid => []
  | .obj mtype message =>
    match mtype with
    | some "ai_greeting" =>
        [Output.backendText (message.getD "Hello! How can I help you?")]
    | some "user_message" =>
        [Output.backendText (message.getD "")]
    | _ => []

/-- Whether the `while True` loop of `websocket_endpoint` is still
running (`active`) or has been left via `break` (`closed`). -/
inductive SessionStatus where
  | active
  | closed
deriving DecidableEq, Repr

/-- Per-connection state of the `main_realtime.py` endpoint: the
segmenter variables plus the loop status. -/
structure RelayState where
  seg : SegState
  status : SessionStatus
deriving DecidableEq, Repr

/-- Fresh session right after `websocket.accept()`. -/
def initRelayState : RelayState := ⟨initSegState, SessionStatus.active⟩

/-- One inbound client frame: a text frame (already put through
`json.loads`, see `TextPayload`) or a binary frame of raw bytes. -/
inductive ClientMsg where
  | text (p : TextPayload)
  | binary (b : List Nat)
deriving DecidableEq, Repr

/-- One iteration of the `main_realtime.py` message loop (lines
223-256) on an arriving frame.  A text frame goes through
`handle_client_message` (all its errors are caught, so the loop
continues).  A binary frame goes through `process_audio_chunk`; a
completed utterance is streamed to the backend; otherwise the raw chunk
itself is streamed when `len(audio_data) >= CHUNK_SIZE`; a decoding
`ValueError` (odd byte count) propagates to the outer
`except Exception` handler, which logs and breaks out of the loop. -/
def stepRealtime (st : RelayState) (m : ClientMsg) : RelayState × List Output :=
  match m with
  | .text p => (st, handle_client_message_rt p)
  | .binary b =>
    match process_audio_chunk st.seg b with
    | none => (⟨st.seg, SessionStatus.closed⟩, [])
    | some (seg1, some u) => (⟨seg1, st.status⟩, [Output.backendAudio u])
    | some (seg1, none) =>
      if CHUNK_SIZE ≤ b.length then
        (⟨seg1, st.status⟩, [Output.backendAudio b])
      else
        (⟨seg1, st.status⟩, [])

/-- Run the `main_realtime.py` message loop over a sequence of client
frames, collecting all outputs in order; once the loop has been left
via `break`, later frames are not processed. -/
def runRelay (st : RelayState) (ms : List ClientMsg) : List Output :=
  match ms with
  | [] => []
  | m :: ms =>
    match st.status with
    | .closed => []
    | .active =>
      let p := stepRealtime st m
      p.2 ++ runRelay p.1 ms

/-! Backend response handling of `speech_server.py`
(`handle_gemini_responses`, lines 91-140). -/

/-- One part of a model turn: optional inline audio bytes and optional
text. -/
structure TurnPart where
  inline_data : Option (List Nat)
  text : Option String
deriving DecidableEq, Repr

/-- The `server_content` field of a backend response: an optional model
turn (its list of parts) and the `turn_complete` flag. -/
structure ServerContent where
  model_turn : Option (List TurnPart)
  turn_complete : Bool
deriving DecidableEq, Repr

/-- One response event from the backend session, modelling the SDK
message object: an optional `server_content` and the `setup_complete`
field (None/absent modelled as `false`). -/
structure LiveServerMessage where
  server_content : Option ServerContent
  setup_complete : Bool
deriving DecidableEq, Repr

/-- Model of Python `hasattr(response, 'setup_complete')`: the SDK
message class declares the field `setup_complete` on every instance
(with value `None` when the event is not a setup event), so `hasattr`
is `True` for every response object. -/
def hasattr_setup_complete (_ : LiveServerMessage) : Bool := true

/-- The hard-coded greeting of `speech_server.py` (line 131). -/
def SPEECH_GREETING : String :=
  "Hello! I\x27m your AI assistant for the Cadenza Residence virtual tour. How can I help you today?"

/-- Outputs of the parts loop in `handle_gemini_responses` of
`speech_server.py` (lines 105-117): each part whose `inline_data` and
`inline_data.data` are truthy sends its bytes to the client. -/
def partsOutputs (parts : List TurnPart) : List Output :=
  match parts with
  | [] => []
  | p :: ps =>
    (match p.inline_data with
     | some d => if d.isEmpty then [] else [Output.clientBytes d]
     | none => []) ++ partsOutputs ps

/-- Embedding of the body of `handle_gemini_responses` in
`speech_server.py` (lines 94-135) for one received response: forward
model-turn audio parts to the client, send a `speech_complete` status
on `turn_complete`, and then — because the guard is
`hasattr(response, 'setup_complete')` with no truthiness test — send
the initial greeting to the backend on every response. -/
def speech_server_handle_response (msg : LiveServerMessage) : List Output :=
  (match msg.server_content with
   | none => []
   | some sc =>
     (match sc.model_turn with
      | none => []
      | some parts => partsOutputs parts) ++
     (if sc.turn_complete then [Output.clientText StatusMsg.speech_complete] else []))
  ++ (if hasattr_setup_complete msg then [Output.backendText SPEECH_GREETING] else [])

/-! Token endpoint of `server.py` (`get_token`, lines 114-142), over a
model of the LiveKit SDK `AccessToken` API. -/

/-- Request body of `POST /get-token`. -/
structure TokenRequest where
  roomName : String
  participantName : String
deriving DecidableEq, Repr

/-- The `api.VideoGrants` fields used by `get_token`. -/
structure VideoGrants where
  room_join : Bool
  room : String
  can_publish : Bool
  can_subscribe : Bool
deriving DecidableEq, Repr

/-- Model of the LiveKit SDK `api.AccessToken` builder: identity is
empty and the time-to-live defaults to 6 hours (21600 seconds) at
construction, per the SDK; `get_token` never overrides the default
ttl (its comment mentions 6 hours but the assignment is absent). -/
structure AccessToken where
  api_key : String
  api_secret : String
  identity : String
  ttl_seconds : Nat
  grants : Option VideoGrants
deriving DecidableEq, Repr

/-- `api.AccessToken(LIVEKIT_API_KEY, LIVEKIT_API_SECRET)`. -/
def AccessToken.new (key secret : String) : AccessToken :=
  ⟨key, secret, "", 21600, none⟩

/-- `at.with_grants(...)`. -/
def AccessToken.with_grants (tok : AccessToken) (g : VideoGrants) : AccessToken :=
  ⟨tok.api_key, tok.api_secret, tok.identity, tok.ttl_seconds, some g⟩

/-- The claims of the signed JWT produced by `to_jwt`: issuer (the api
key), subject (the identity), the video grants, the validity period,
and the secret the signature binds. -/
structure Jwt where
  iss : String
  sub : String
  video : Option VideoGrants
  ttl_seconds : Nat
  signed_with : String
deriving DecidableEq, Repr

/-- `at.to_jwt()`: serialize the accumulated claims into a signed
token. -/
def AccessToken.to_jwt (tok : AccessToken) : Jwt :=
  ⟨tok.api_key, tok.identity, tok.grants, tok.ttl_seconds, tok.api_secret⟩

/-- Response body of `POST /get-token`. -/
structure TokenResponse where
  token : Jwt
  url : String
deriving DecidableEq, Repr

/-- Embedding of `get_token` from `server.py` (lines 114-142): build an
access token from the configured credentials, set its identity to the
participant name, grant `room_join`, `can_publish` and `can_subscribe`
scoped to the requested room, and return the signed token together
with the configured LiveKit URL. -/
def get_token (api_key api_secret livekit_url : String)
    (req : TokenRequest) : TokenResponse :=
  let tok0 := AccessToken.new api_key api_secret
  let tok1 : AccessToken :=
    ⟨tok0.api_key, tok0.api_secret, req.participantName, tok0.ttl_seconds, tok0.grants⟩
  let tok2 := tok1.with_grants ⟨true, req.roomName, true, true⟩
  ⟨tok2.to_jwt, livekit_url⟩

/-! Helper lemmas about the segmenter. -/

/-- Numeric value of the silence threshold. -/
theorem SILENCE_THRESHOLD_eq : SILENCE_THRESHOLD = 10 := rfl

/-- Unfolding the runner one accepted step. -/
theorem runSegmenter_cons_some (st st1 : SegState) (e : Option (List Nat))
    (c : List Nat) (cs : List (List Nat))
    (hp : process_audio_chunk st c = some (st1, e)) :
    runSegmenter st (c :: cs) =
      (runSegmenter st1 cs).map (fun q => (q.1, e.toList ++ q.2)) := by
  simp only [runSegmenter, hp]
  cases hq : runSegmenter st1 cs with
  | none => rfl
  | some q => obtain ⟨a, b⟩ := q; rfl

/-- A voiced chunk sets `is_speaking`, zeroes the counter, appends the
chunk, and emits nothing. -/
theorem process_voiced (st : SegState) (c : List Nat) (hv : isVoiced c = true) :
    process_audio_chunk st c = some (⟨st.audio_buffer ++ c, true, 0⟩, none) := by
  unfold isVoiced at hv
  cases hf : frombuffer_int16 c with
  | none => rw [hf] at hv; simp at hv
  | some samples =>
    rw [hf] at hv
    have hv2 : audioLevelExceeds samples voice_threshold = true := hv
    unfold process_audio_chunk
    rw [hf]
    simp [hv2]

/-- A voiced chunk is nonempty. -/
theorem voiced_ne_nil (c : List Nat) (hv : isVoiced c = true) : c ≠ [] := by
  intro h
  subst h
  exact absurd hv (by decide)

/-- A silent chunk while speaking with a nonempty buffer: the counter
increments; the buffer is emitted (and, per the source, retained) when
the counter passes the silence threshold. -/
theorem process_silent_speaking (buf : List Nat) (cnt : Nat) (c : List Nat)
    (hw : isWellFormed c = true) (hv : isVoiced c = false) (hb : buf ≠ []) :
    process_audio_chunk ⟨buf, true, cnt⟩ c =
      if SILENCE_THRESHOLD < cnt + 1 then some (⟨buf, true, cnt + 1⟩, some buf)
      else some (⟨buf, true, cnt + 1⟩, none) := by
  unfold isWellFormed at hw
  unfold isVoiced at hv
  cases hf : frombuffer_int16 c with
  | none => rw [hf] at hw; simp at hw
  | some samples =>
    rw [hf] at hv
    have hv2 : audioLevelExceeds samples voice_threshold = false := hv
    unfold process_audio_chunk
    rw [hf]
    have hlen : 0 < buf.length := List.length_pos.mpr hb
    by_cases hth : SILENCE_THRESHOLD < cnt + 1 <;> simp [hv2, hth, hlen]

/-- A silent chunk while not speaking only increments the counter. -/
theorem process_silent_idle (buf : List Nat) (cnt : Nat) (c : List Nat)
    (hw : isWellFormed c = true) (hv : isVoiced c = false) :
    process_audio_chunk ⟨buf, false, cnt⟩ c = some (⟨buf, false, cnt + 1⟩, none) := by
  unfold isWellFormed at hw
  unfold isVoiced at hv
  cases hf : frombuffer_int16 c with
  | none => rw [hf] at hw; simp at hw
  | some samples =>
    rw [hf] at hv
    have hv2 : audioLevelExceeds samples voice_threshold = false := hv
    unfold process_audio_chunk
    rw [hf]
    simp [hv2]

/-- Running the segmenter over an appended list composes the two runs,
concatenating the emissions. -/
theorem runSegmenter_append (xs ys : List (List Nat)) (st st1 : SegState)
    (es : List (List Nat)) (h : runSegmenter st xs = some (st1, es)) :
    runSegmenter st (xs ++ ys) =
      (runSegmenter st1 ys).map (fun q => (q.1, es ++ q.2)) := by
  revert h
  induction xs generalizing st es with
  | nil =>
    intro h
    simp only [runSegmenter, Option.some.injEq, Prod.mk.injEq] at h
    obtain ⟨h1, h2⟩ := h
    subst h1; subst h2
    simp only [List.nil_append]
    cases runSegmenter st ys with
    | none => rfl
    | some q => simp
  | cons x xs ih =>
    intro h
    cases hp : process_audio_chunk st x with
    | none =>
      simp only [runSegmenter, hp] at h
      exact Option.noConfusion h
    | some p =>
      obtain ⟨stx, ex⟩ := p
      rw [runSegmenter_cons_some st stx ex x xs hp] at h
      cases hr : runSegmenter stx xs with
      | none => rw [hr] at h; simp at h
      | some q =>
        obtain ⟨st1x, esx⟩ := q
        rw [hr] at h
        simp only [Option.map_some', Option.some.injEq, Prod.mk.injEq] at h
        obtain ⟨h1, h2⟩ := h
        subst h1; subst h2
        rw [List.cons_append, runSegmenter_cons_some st stx ex x (xs ++ ys) hp,
          ih stx esx hr, Option.map_map]
        congr 1
        funext q
        simp [Function.comp, List.append_assoc]

/-- Feeding a nonempty list of voiced chunks appends all their bytes to
the buffer in order, ends speaking with a zero counter, and emits
nothing. -/
theorem runSegmenter_voiced (loud : List (List Nat)) (st : SegState)
    (hl : loud ≠ []) (hv : ∀ c ∈ loud, isVoiced c = true) :
    runSegmenter st loud = some (⟨st.audio_buffer ++ loud.flatten, true, 0⟩, []) := by
  revert hl hv
  induction loud generalizing st with
  | nil => intro hl hv; exact absurd rfl hl
  | cons c cs ih =>
    intro hl hv
    have hc : isVoiced c = true := hv c (List.mem_cons_self c cs)
    have hcs : ∀ d ∈ cs, isVoiced d = true := fun d hd => hv d (List.mem_cons_of_mem c hd)
    rw [runSegmenter_cons_some st ⟨st.audio_buffer ++ c, true, 0⟩ none c cs
      (process_voiced st c hc)]
    cases cs with
    | nil => simp [runSegmenter]
    | cons c2 cs2 =>
      rw [ih ⟨st.audio_buffer ++ c, true, 0⟩ (by simp) hcs]
      simp [List.append_assoc]

/-- While speaking with a nonempty buffer and counter `cnt`, feeding
well-formed silent chunks keeps the buffer and flag and advances the
counter; exactly when the counter reaches the threshold plus one, the
buffer is emitted once. -/
theorem runSegmenter_silent_speaking (silent : List (List Nat)) (buf : List Nat)
    (cnt : Nat) (hb : buf ≠ []) (hc : cnt ≤ SILENCE_THRESHOLD)
    (hlen : cnt + silent.length ≤ SILENCE_THRESHOLD + 1)
    (hs : ∀ c ∈ silent, isWellFormed c = true ∧ isVoiced c = false) :
    runSegmenter ⟨buf, true, cnt⟩ silent =
      some (⟨buf, true, cnt + silent.length⟩,
        if cnt + silent.length = SILENCE_THRESHOLD + 1 then [buf] else []) := by
  revert hc hlen hs
  induction silent generalizing cnt with
  | nil =>
    intro hc hlen hs
    simp [runSegmenter]
    omega
  | cons c cs ih =>
    intro hc hlen hs
    have hcw := hs c (List.mem_cons_self c cs)
    have hcs : ∀ d ∈ cs, isWellFormed d = true ∧ isVoiced d = false :=
      fun d hd => hs d (List.mem_cons_of_mem c hd)
    simp only [List.length_cons] at hlen ⊢
    by_cases hth : SILENCE_THRESHOLD < cnt + 1
    · -- the counter crosses now, so the rest must be empty
      have hcs0 : cs = [] := by
        cases cs with
        | nil => rfl
        | cons d ds => simp only [List.length_cons] at hlen; omega
      subst hcs0
      have hp : process_audio_chunk ⟨buf, true, cnt⟩ c =
          some (⟨buf, true, cnt + 1⟩, some buf) := by
        rw [process_silent_speaking buf cnt c hcw.1 hcw.2 hb]
        simp [hth]
      rw [runSegmenter_cons_some _ _ _ c [] hp]
      have h1 : cnt + 1 = SILENCE_THRESHOLD + 1 := by omega
      simp [runSegmenter, h1]
    · have h2 : cnt + 1 ≤ SILENCE_THRESHOLD := by omega
      have h3 : cnt + 1 + cs.length ≤ SILENCE_THRESHOLD + 1 := by omega
      have hp : process_audio_chunk ⟨buf, true, cnt⟩ c =
          some (⟨buf, true, cnt + 1⟩, none) := by
        rw [process_silent_speaking buf cnt c hcw.1 hcw.2 hb]
        simp [hth]
      rw [runSegmenter_cons_some _ _ _ c cs hp, ih (cnt + 1) h2 h3 hcs]
      have h4 : cnt + 1 + cs.length = cnt + (cs.length + 1) := by omega
      by_cases h5 : cnt + (cs.length + 1) = SILENCE_THRESHOLD + 1 <;> simp [h4, h5]

/-- While not speaking, well-formed silent chunks only advance the
counter and never emit. -/
theorem runSegmenter_silent_idle (silent : List (List Nat)) (buf : List Nat)
    (cnt : Nat) (hs : ∀ c ∈ silent, isWellFormed c = true ∧ isVoiced c = false) :
    runSegmenter ⟨buf, false, cnt⟩ silent =
      some (⟨buf, false, cnt + silent.length⟩, []) := by
  revert hs
  induction silent generalizing cnt with
  | nil => intro hs; simp [runSegmenter]
  | cons c cs ih =>
    intro hs
    have hcw := hs c (List.mem_cons_self c cs)
    have hcs : ∀ d ∈ cs, isWellFormed d = true ∧ isVoiced d = false :=
      fun d hd => hs d (List.mem_cons_of_mem c hd)
    rw [runSegmenter_cons_some _ _ _ c cs (process_silent_idle buf cnt c hcw.1 hcw.2),
      ih (cnt + 1) hcs]
    have h4 : cnt + 1 + cs.length = cnt + (cs.length + 1) := by omega
    simp [h4]

/-- A nonempty list of voiced chunks has a nonempty concatenation. -/
theorem flatten_voiced_ne_nil (loud : List (List Nat)) (hl : loud ≠ [])
    (hv : ∀ c ∈ loud, isVoiced c = true) : loud.flatten ≠ [] := by
  cases loud with
  | nil => exact absurd rfl hl
  | cons c cs =>
    have hc : c ≠ [] := voiced_ne_nil c (hv c (List.mem_cons_self c cs))
    simp only [List.flatten_cons]
    intro h
    exact hc (List.append_eq_nil.mp h).1

/-! Claim theorems about the segmenter. -/

/-- C1 (counterexample to the claim as stated): the chunk
`[0x00, 0x80]` is the single sample -32768, whose true mean absolute
amplitude is 32768 and exceeds the voice threshold; but numpy's int16
`np.abs` wraps -32768 to -32768, so the program classifies the chunk
as silence, and feeding it followed by `SILENCE_THRESHOLD + 1` silent
chunks emits no utterance at all — not the one utterance the claim
asserts. -/
theorem claim_wrapped_abs_no_emission :
    specMeanAbsExceeds [-32768] voice_threshold = true ∧
    frombuffer_int16 [0, 128] = some [-32768] ∧
    isVoiced [0, 128] = false ∧
    runSegmenter initSegState ([[0, 128]] ++ List.replicate 11 []) =
      some (⟨[], false, 12⟩, []) :=
  ⟨rfl, rfl, rfl, by decide⟩

/-- C1 amended: from the segmenter start state (not speaking, empty
buffer, zero counter), feeding a nonempty list of chunks whose mean
absolute amplitude — as the program computes it, with numpy's wrapped
int16 absolute value — exceeds the voice threshold, followed by
`SILENCE_THRESHOLD + 1` well-formed chunks at or below that computed
threshold, emits exactly one completed utterance, whose bytes are
exactly the voiced chunks' bytes concatenated in order. -/
theorem claim_segmenter_emission (loud silent : List (List Nat))
    (hl : loud ≠ [])
    (hv : ∀ c ∈ loud, isVoiced c = true)
    (hs : ∀ c ∈ silent, isWellFormed c = true ∧ isVoiced c = false)
    (hn : silent.length = SILENCE_THRESHOLD + 1) :
    runSegmenter initSegState (loud ++ silent) =
      some (⟨loud.flatten, true, SILENCE_THRESHOLD + 1⟩, [loud.flatten]) := by
  unfold initSegState
  have h1 := runSegmenter_voiced loud ⟨[], false, 0⟩ hl hv
  simp only [List.nil_append] at h1
  have hj := flatten_voiced_ne_nil loud hl hv
  have h2 := runSegmenter_silent_speaking silent loud.flatten 0 hj
    (Nat.zero_le _) (by omega) hs
  rw [runSegmenter_append loud silent ⟨[], false, 0⟩ ⟨loud.flatten, true, 0⟩ [] h1, h2]
  have h3 : 0 + silent.length = SILENCE_THRESHOLD + 1 := by omega
  simp [h3]

/-- Witness for C1 at one voiced chunk (sample value 512) followed by
eleven empty silent chunks. -/
theorem claim_segmenter_emission_witness :
    runSegmenter initSegState ([[0, 2]] ++ List.replicate 11 []) =
      some (⟨[0, 2], true, 11⟩, [[0, 2]]) :=
  claim_segmenter_emission [[0, 2]] (List.replicate 11 [])
    (by decide) (by decide) (by decide) (by decide)

/-- C2 (code evaluated at the failing input): in the speaking state with
buffer `[0, 2]` and silence counter 10, a silent chunk makes the
segmenter emit the buffer, yet the post-state still holds the buffer
and the speaking flag — the `audio_buffer.clear()` and
`is_speaking = False` statements of the source sit after the `return`
and never execute on the emission path. -/
theorem claim_emission_retains_buffer :
    process_audio_chunk ⟨[0, 2], true, 10⟩ [] =
      some (⟨[0, 2], true, 11⟩, some [0, 2]) ∧
    (⟨[0, 2], true, 11⟩ : SegState).audio_buffer ≠ [] ∧
    (⟨[0, 2], true, 11⟩ : SegState).is_speaking = true :=
  ⟨rfl, by decide, rfl⟩

/-- C8: from the start state, any number of well-formed chunks at or
below the voice threshold never emits a completed utterance. -/
theorem claim_silence_never_emits (silent : List (List Nat))
    (hs : ∀ c ∈ silent, isWellFormed c = true ∧ isVoiced c = false) :
    runSegmenter initSegState silent = some (⟨[], false, silent.length⟩, []) := by
  have h := runSegmenter_silent_idle silent [] 0 hs
  simpa [initSegState] using h

/-- Witness for C8 at three silent chunks. -/
theorem claim_silence_never_emits_witness :
    runSegmenter initSegState [[], [0, 0], [1, 0]] =
      some (⟨[], false, 3⟩, []) :=
  claim_silence_never_emits [[], [0, 0], [1, 0]] (by decide)

/-- C9: whenever the buffer is empty, processing any chunk emits
nothing — in particular the silence-threshold crossing with an empty
buffer emits no empty utterance. -/
theorem claim_no_empty_emission (st : SegState) (b : List Nat)
    (r : SegState × Option (List Nat)) (hbuf : st.audio_buffer = [])
    (hr : process_audio_chunk st b = some r) : r.2 = none := by
  unfold process_audio_chunk at hr
  split at hr
  · exact Option.noConfusion hr
  · split at hr
    · injection hr with h; subst h; rfl
    · split at hr
      · split at hr
        · rename_i hpos
          rw [hbuf] at hpos
          simp at hpos
        · injection hr with h; subst h; rfl
      · injection hr with h; subst h; rfl

/-- Witness for C9: an empty buffer at the silence-threshold crossing
yields no emission. -/
theorem claim_no_empty_emission_witness :
    ((⟨[], false, 11⟩, none) : SegState × Option (List Nat)).2 = none :=
  claim_no_empty_emission ⟨[], true, 10⟩ [] (⟨[], false, 11⟩, none) rfl rfl

/-- C10: a zero-length chunk is handled totally and follows the
silence branch — numpy yields NaN for the empty mean and the threshold
comparison is False — so the counter is incremented, no bytes are
appended, and the speaking flag is never newly set. -/
theorem claim_empty_chunk_silent (st : SegState) :
    (process_audio_chunk st []).elim False (fun r =>
      r.1.silence_counter = st.silence_counter + 1 ∧
      r.1.audio_buffer = st.audio_buffer ∧
      (r.1.is_speaking = true → st.is_speaking = true)) := by
  have hf : frombuffer_int16 [] = some [] := rfl
  have hv : audioLevelExceeds [] voice_threshold = false := rfl
  unfold process_audio_chunk
  rw [hf]
  simp only [hv, Bool.false_eq_true, if_false]
  split
  · split
    · simp
    · rename_i hpos
      have hb : st.audio_buffer = [] := by
        cases hbuf : st.audio_buffer with
        | nil => rfl
        | cons a l => rw [hbuf] at hpos; simp at hpos
      simp [hb]
  · simp

/-- Witness for C10 at the state with buffer `[1]`, speaking, counter
5. -/
theorem claim_empty_chunk_silent_witness :
    (6 : Nat) = 5 + 1 ∧ ([1] : List Nat) = [1] ∧ (true = true → true = true) :=
  claim_empty_chunk_silent ⟨[1], true, 5⟩

/-! Claim theorems about the relay loop, the response handler and the
token endpoint. -/

set_option maxRecDepth 100000 in
/-- C3 (counterexample): a fresh session receiving one 1024-byte silent
chunk completes no utterance, yet the chunk's bytes are forwarded to
the backend (`main_realtime.py` lines 243-245 stream any chunk of at
least `CHUNK_SIZE` bytes even when the segmenter emitted nothing). -/
theorem claim_non_utterance_audio_forwarded :
    process_audio_chunk initSegState (List.replicate 1024 0) =
      some (⟨[], false, 1⟩, none) ∧
    (stepRealtime initRelayState (ClientMsg.binary (List.replicate 1024 0))).2 =
      [Output.backendAudio (List.replicate 1024 0)] :=
  ⟨by decide, by decide⟩

/-- C3 amended: every binary message is passed to the segmenter, and a
completed utterance is forwarded as one audio turn; but a chunk that
completes no utterance is itself forwarded raw whenever its byte
length is at least `CHUNK_SIZE` (1024), and only shorter
non-completing chunks send nothing to the backend. -/
theorem claim_audio_forwarding_rule (st : RelayState) (b : List Nat)
    (seg1 : SegState) (e : Option (List Nat))
    (hp : process_audio_chunk st.seg b = some (seg1, e)) :
    (stepRealtime st (ClientMsg.binary b)).1.seg = seg1 ∧
    (stepRealtime st (ClientMsg.binary b)).2 =
      (match e with
       | some u => [Output.backendAudio u]
       | none =>
         if CHUNK_SIZE ≤ b.length then [Output.backendAudio b] else []) := by
  cases e with
  | some u => simp [stepRealtime, hp]
  | none =>
    by_cases hc : CHUNK_SIZE ≤ b.length <;> simp [stepRealtime, hp, hc]

/-- Witness for C3 (amended) at a short silent chunk: nothing reaches
the backend. -/
theorem claim_audio_forwarding_rule_witness :
    (stepRealtime initRelayState (ClientMsg.binary [0, 0])).1.seg =
      (⟨[], false, 1⟩ : SegState) ∧
    (stepRealtime initRelayState (ClientMsg.binary [0, 0])).2 = [] :=
  claim_audio_forwarding_rule initRelayState [0, 0] ⟨[], false, 1⟩ none rfl

/-- C4 (counterexample): a malformed binary frame of odd byte length is
not merely logged and ignored — the decoding error reaches the
catch-all handler of the message loop, which breaks, ending the
session. -/
theorem claim_odd_binary_closes_session :
    (stepRealtime initRelayState (ClientMsg.binary [0])).1.status =
      SessionStatus.closed := rfl

/-- C4 amended: an invalid-JSON text frame is logged and ignored — the
session stays active and nothing is emitted — while a binary frame of
odd byte length raises in sample decoding and terminates the message
loop. -/
theorem claim_malformed_message_handling (st : RelayState) (b : List Nat)
    (ha : st.status = SessionStatus.active) (hw : isWellFormed b = false) :
    (stepRealtime st (ClientMsg.text TextPayload.invalid)).1.status =
      SessionStatus.active ∧
    (stepRealtime st (ClientMsg.text TextPayload.invalid)).2 = [] ∧
    (stepRealtime st (ClientMsg.binary b)).1.status = SessionStatus.closed := by
  refine ⟨?_, rfl, ?_⟩
  · simp [stepRealtime]
    exact ha
  · have hf : frombuffer_int16 b = none := by
      unfold isWellFormed at hw
      cases hfb : frombuffer_int16 b with
      | none => rfl
      | some s => rw [hfb] at hw; simp at hw
    simp [stepRealtime, process_audio_chunk, hf]

/-- Witness for C4 (amended) at a fresh session and a one-byte frame. -/
theorem claim_malformed_message_handling_witness :
    (stepRealtime initRelayState (ClientMsg.text TextPayload.invalid)).1.status =
      SessionStatus.active ∧
    (stepRealtime initRelayState (ClientMsg.text TextPayload.invalid)).2 = [] ∧
    (stepRealtime initRelayState (ClientMsg.binary [0])).1.status =
      SessionStatus.closed :=
  claim_malformed_message_handling initRelayState [0] rfl rfl

/-- C5 (code evaluated at the failing input): in `speech_server.py`,
a response event carrying only `turn_complete` — its `setup_complete`
field unset — still causes the initial greeting to be sent to the
backend, because the guard `hasattr(response, 'setup_complete')` holds
for every response object; the near-duplicate `main.py` guards with
`and message.setup_complete`, showing the intended check. -/
theorem claim_greeting_on_every_event :
    (LiveServerMessage.mk (some ⟨none, true⟩) false).setup_complete = false ∧
    speech_server_handle_response ⟨some ⟨none, true⟩, false⟩ =
      [Output.clientText StatusMsg.speech_complete,
       Output.backendText SPEECH_GREETING] :=
  ⟨rfl, rfl⟩

/-- C7 (counterexample): the `main.py` relay, also cited for this
claim, ignores a `start_realtime_voice` control message entirely: no
`voice_status` acknowledgment (nor any other output) is produced. -/
theorem claim_mainpy_ignores_start_voice :
    mainpy_handle_text (TextPayload.obj (some "start_realtime_voice") none) = [] :=
  rfl

/-- C7 amended: in the `main_realtime.py` relay, a
`start_realtime_voice` control message yields the
`voice_status listening` acknowledgment within its own loop iteration,
before any later frame (in particular any subsequent audio chunk) is
processed; the `main_speech.py` handler acknowledges identically; the
`main.py` relay ignores the message. -/
theorem claim_start_voice_ack (st : RelayState) (rest : List ClientMsg)
    (ha : st.status = SessionStatus.active) :
    runRelay st (ClientMsg.text (TextPayload.obj (some "start_realtime_voice") none)
        :: rest) =
      Output.clientText (StatusMsg.voice_status "listening") :: runRelay st rest ∧
    handle_client_message_speech
        (TextPayload.obj (some "start_realtime_voice") none) =
      [Output.clientText (StatusMsg.voice_status "listening")] := by
  refine ⟨?_, rfl⟩
  simp [runRelay, ha, stepRealtime, handle_client_message_rt]

/-- Witness for C7 (amended) at a fresh session with no further
frames. -/
theorem claim_start_voice_ack_witness :
    runRelay initRelayState
        [ClientMsg.text (TextPayload.obj (some "start_realtime_voice") none)] =
      Output.clientText (StatusMsg.voice_status "listening") ::
        runRelay initRelayState [] ∧
    handle_client_message_speech
        (TextPayload.obj (some "start_realtime_voice") none) =
      [Output.clientText (StatusMsg.voice_status "listening")] :=
  claim_start_voice_ack initRelayState [] rfl

/-- C6: `POST /get-token` returns the configured server URL together
with a token signed with the configured secret, whose identity is the
participant name, whose grants are `room_join`, `can_publish` and
`can_subscribe` scoped to the requested room, and whose validity
period is finite — the SDK default of 6 hours (21600 seconds), since
`get_token` never overrides it. -/
theorem claim_get_token_grants
    (api_key api_secret livekit_url room participant : String) :
    (get_token api_key api_secret livekit_url ⟨room, participant⟩).token.sub =
      participant ∧
    (get_token api_key api_secret livekit_url ⟨room, participant⟩).token.video =
      some ⟨true, room, true, true⟩ ∧
    (get_token api_key api_secret livekit_url ⟨room, participant⟩).token.ttl_seconds =
      21600 ∧
    0 < (get_token api_key api_secret livekit_url ⟨room, participant⟩).token.ttl_seconds ∧
    (get_token api_key api_secret livekit_url ⟨room, participant⟩).token.signed_with =
      api_secret ∧
    (get_token api_key api_secret livekit_url ⟨room, participant⟩).url = livekit_url := by
  refine ⟨rfl, rfl, rfl, ?_, rfl, rfl⟩
  show (0 : Nat) < 21600
  norm_num

end Cadenza
